import Mathlib

/-!
Verification of the BLE V2 medium (connections/implementation/mediums/ble_v2.cc).

Shallow embedding conventions:
* C++ byte arrays and byte strings are `Bytes := List Nat`.
* The mutable fields of the `BleV2` object become the record `BleState`;
  each member function is a Lean function from an environment (the platform
  oracle), the state and the arguments to a result, the new state and a
  trace of externally visible events.
* `absl::flat_hash_set` / `flat_hash_map` insertion keeps the first entry for
  a key (`insert` does not overwrite), modelled by insert-if-absent on lists;
  iteration order of the map is modelled by the list order.
* Platform calls (radio state, medium validity, GATT server/client results,
  serializers living in other translation units) are oracle fields of `Env`
  and `GattEnv`; the SHA256 hash is an abstract function parameter.
-/

namespace BleV2

/-- Byte strings (std::string and ByteArray contents). -/
abbrev Bytes := List Nat

/-- Maximum advertisement length accepted by StartAdvertising
(kMaxAdvertisementLength = 512 in ble_v2.cc). -/
def kMaxAdvertisementLength : Nat := 512

/-- GATT characteristic handle as produced by CreateCharacteristic; its UUID is
a deterministic function of the slot, so the slot index identifies it. -/
structure GattCharacteristic where
  slotUuid : Nat
deriving DecidableEq, Repr

/-- Externally visible events of the medium: platform calls and GATT traffic. -/
inductive Event where
  | platformStartAdvertising
  | platformStopAdvertising
  | platformStartScanning
  | platformStopScanning
  | alarmArmed
  | alarmCancelled
  | gattConnect
  | gattDisconnect
  | updateCharacteristic (c : GattCharacteristic) (value : Bytes)
deriving DecidableEq, Repr

/-- Mutable state of the BleV2 object: the service-id registries, the GATT
slot map (slot, service id, advertisement bytes), the hosted characteristics,
whether the shared advertisement GATT server object is live, the tracker's
registration set and the lost-sweep alarm flag. -/
structure BleState where
  advertising_service_ids : List Bytes
  scanned_service_ids : List Bytes
  gatt_advertisements : List (Nat × Bytes × Bytes)
  hosted_gatt_characteristics : List GattCharacteristic
  gatt_server_running : Bool
  tracked_service_ids : List Bytes
  lost_alarm_armed : Bool
deriving DecidableEq, Repr

/-- Platform oracle for one member-function call: radio and medium state,
outcomes of the platform primitives, and the serialized byte strings that
other translation units (BleAdvertisement / BleAdvertisementHeader codecs)
would produce. -/
structure Env where
  radio_enabled : Bool
  medium_valid : Bool
  medium_advertisement_bytes : Bytes
  start_gatt_server_ok : Bool
  create_characteristic : Nat → Option GattCharacteristic
  update_characteristic_ok : Bool
  header_bytes_nonempty : Bool
  platform_start_advertising_ok : Bool
  platform_stop_advertising_ok : Bool
  platform_start_scanning_ok : Bool
  platform_stop_scanning_ok : Bool

/-- Insert-if-absent, modelling absl hash-set/map insertion (no overwrite). -/
def insertIfAbsent (x : Bytes) (l : List Bytes) : List Bytes :=
  if l.contains x then l else x :: l

/-- Insert a slot entry if the slot key is not already present
(flat_hash_map::insert keeps the existing entry). -/
def insertSlot (slot : Nat) (sid : Bytes) (b : Bytes)
    (m : List (Nat × Bytes × Bytes)) : List (Nat × Bytes × Bytes) :=
  if m.any (fun e => e.1 == slot) then m else (slot, sid, b) :: m

/-- Insert a characteristic if absent (hosted_gatt_characteristics_ is a set). -/
def insertChar (c : GattCharacteristic) (l : List GattCharacteristic) :
    List GattCharacteristic :=
  if l.contains c then l else c :: l

/-- BleV2::IsAvailableLocked: medium_.IsValid(). -/
def isAvailableLocked (env : Env) : Bool := env.medium_valid

/-- BleV2::IsAdvertisingLocked. -/
def isAdvertisingLocked (s : BleState) (service_id : Bytes) : Bool :=
  s.advertising_service_ids.contains service_id

/-- BleV2::IsScanningLocked. -/
def isScanningLocked (s : BleState) (service_id : Bytes) : Bool :=
  s.scanned_service_ids.contains service_id

/-- BleV2::IsAdvertisementGattServerRunningLocked:
gatt_server_ non-null and valid. -/
def isAdvertisementGattServerRunningLocked (s : BleState) : Bool :=
  s.gatt_server_running

/-- BleV2::StopAdvertisementGattServerLocked: returns false when the server is
not running, otherwise resets the server object. -/
def stopAdvertisementGattServerLocked (s : BleState) : Bool × BleState :=
  if !isAdvertisementGattServerRunningLocked s then (false, s)
  else (true, { s with gatt_server_running := false })

/-- BleV2::GenerateAdvertisementCharacteristic: creates a read-only
characteristic for the slot, writes the advertisement into it, and records it
in hosted_gatt_characteristics_; fails when creation or the write fails. -/
def generateAdvertisementCharacteristic (env : Env) (slot : Nat)
    (s : BleState) : Bool × BleState :=
  match env.create_characteristic slot with
  | none => (false, s)
  | some c =>
    if !env.update_characteristic_ok then (false, s)
    else (true, { s with
      hosted_gatt_characteristics := insertChar c s.hosted_gatt_characteristics })

/-- BleV2::StartAdvertisementGattServerLocked: refuses when a server is already
running; starts a fresh platform GATT server, publishes the advertisement into
slot 0 and records the slot entry; on characteristic failure the fresh server
is stopped (never assigned), so the running flag stays false. -/
def startAdvertisementGattServerLocked (env : Env) (s : BleState)
    (service_id : Bytes) (gatt_advertisement : Bytes) : Bool × BleState :=
  if isAdvertisementGattServerRunningLocked s then (false, s)
  else if !env.start_gatt_server_ok then (false, s)
  else
    let (ok, s1) := generateAdvertisementCharacteristic env 0 s
    if !ok then (false, s1)
    else
      (true, { s1 with
        gatt_advertisements :=
          insertSlot 0 service_id gatt_advertisement s1.gatt_advertisements,
        gatt_server_running := true })

/-- Compact advertisement header assembled by BleV2::CreateAdvertisementHeader.
The bloom filter is modelled by the list of keys added to it. -/
structure BleAdvertisementHeader where
  version : Nat
  extended_advertisement : Bool
  num_slots : Nat
  bloom_keys : List Bytes
  advertisement_hash : Bytes
  psm : Int
deriving DecidableEq, Repr

/-- BleV2::CreateAdvertisementHeader: seeds a bloom filter and the hash chain
with a randomized dummy service id, then for each slot entry (iterated in the
list order that models the map's iteration order) adds the entry's service id
to the bloom filter and extends the hash chain with the entry's advertisement
bytes: hash := H(hash ++ bytes). -/
def createAdvertisementHeader (hash : Bytes → Bytes)
    (dummy_service_id : Bytes)
    (gatt_advertisements : List (Nat × Bytes × Bytes)) : BleAdvertisementHeader :=
  let chain :=
    gatt_advertisements.foldl
      (fun (acc : List Bytes × Bytes) item =>
        (acc.1 ++ [item.2.1], hash (acc.2 ++ item.2.2)))
      ([dummy_service_id], hash dummy_service_id)
  { version := 2
    extended_advertisement := false
    num_slots := gatt_advertisements.length
    bloom_keys := chain.1
    advertisement_hash := chain.2
    psm := 0 }

/-- Modelled from the spec: the chained digest of section 4.3, digest0 =
Hash(seed), digest_{i+1} = Hash(digest_i ++ slot_bytes_i) over the occupied
slots' byte strings in order. Used to compare the source computation against
the spec's description. -/
def headerHashChainSpec (hash : Bytes → Bytes) (seed : Bytes)
    (slotBytes : List Bytes) : Bytes :=
  slotBytes.foldl (fun d b => hash (d ++ b)) (hash seed)

/-- Power levels requested by callers. The C++ enum lists kHighPower and
kLowPower; a scoped enum value outside the listed enumerators is still
representable and hits the switch's default branch, modelled by the extra
constructor. -/
inductive PowerLevel where
  | kHighPower
  | kLowPower
  | unlistedValue (v : Nat)
deriving DecidableEq, Repr

/-- Platform power modes (api::ble_v2::PowerMode). -/
inductive PowerMode where
  | kUnknown
  | kUltraLow
  | kLow
  | kMedium
  | kHigh
deriving DecidableEq, Repr

/-- BleV2::PowerLevelToPowerMode: kHighPower maps to kHigh, kLowPower to
kMedium (medium power is about the size of a conference room), everything
else to kUnknown. -/
def powerLevelToPowerMode : PowerLevel → PowerMode
  | PowerLevel.kHighPower => PowerMode.kHigh
  | PowerLevel.kLowPower => PowerMode.kMedium
  | PowerLevel.unlistedValue _ => PowerMode.kUnknown

/-- BleV2::StartAdvertising. Validation checks in source order; then the fast
path embeds the medium advertisement as scan-response service data, while the
slow path aggressively stops any pre-existing GATT server (the
no_incoming_ble_sockets flag is the constant true of the source), starts a
fresh one carrying the advertisement, and builds the header
(env.header_bytes_nonempty models whether the serialized header is
non-empty); on a failure after the server was started the server is stopped
again. Finally the platform StartAdvertising is invoked and the service id is
registered on success. -/
def startAdvertising (env : Env) (s : BleState) (service_id : Bytes)
    (advertisement_bytes : Bytes) (fast_advertisement_service_uuid : Bytes) :
    Bool × BleState × List Event :=
  if advertisement_bytes.isEmpty then (false, s, [])
  else if kMaxAdvertisementLength < advertisement_bytes.length then (false, s, [])
  else if isAdvertisingLocked s service_id then (false, s, [])
  else if !env.radio_enabled then (false, s, [])
  else if !isAvailableLocked env then (false, s, [])
  else if env.medium_advertisement_bytes.isEmpty then (false, s, [])
  else if !fast_advertisement_service_uuid.isEmpty then
    if env.platform_start_advertising_ok then
      (true,
       { s with advertising_service_ids :=
           insertIfAbsent service_id s.advertising_service_ids },
       [Event.platformStartAdvertising])
    else
      (false, (stopAdvertisementGattServerLocked s).2,
       [Event.platformStartAdvertising])
  else
    let s1 := (stopAdvertisementGattServerLocked s).2
    let started :=
      if isAdvertisementGattServerRunningLocked s1 then (true, s1)
      else
        startAdvertisementGattServerLocked env s1 service_id
          env.medium_advertisement_bytes
    if !started.1 then (false, started.2, [])
    else if !env.header_bytes_nonempty then
      (false, (stopAdvertisementGattServerLocked started.2).2, [])
    else if env.platform_start_advertising_ok then
      (true,
       { started.2 with advertising_service_ids :=
           insertIfAbsent service_id started.2.advertising_service_ids },
       [Event.platformStartAdvertising])
    else
      (false, (stopAdvertisementGattServerLocked started.2).2,
       [Event.platformStartAdvertising])

/-- BleV2::StopAdvertising: fails when the service id is not advertising;
clears the slot map; when hosted characteristics exist their values are set to
empty and the set is cleared (the server object is left alone), otherwise,
since no_incoming_ble_sockets is the constant true, the advertisement GATT
server is stopped; finally the id is erased and the platform StopAdvertising
result is returned. -/
def stopAdvertising (env : Env) (s : BleState) (service_id : Bytes) :
    Bool × BleState × List Event :=
  if !isAdvertisingLocked s service_id then (false, s, [])
  else
    let s1 := { s with gatt_advertisements := ([] : List (Nat × Bytes × Bytes)) }
    let afterServer :=
      if !s1.hosted_gatt_characteristics.isEmpty then
        ({ s1 with hosted_gatt_characteristics := ([] : List GattCharacteristic) },
         s1.hosted_gatt_characteristics.map
           (fun c => Event.updateCharacteristic c []))
      else
        ((stopAdvertisementGattServerLocked s1).2, ([] : List Event))
    (env.platform_stop_advertising_ok,
     { afterServer.1 with advertising_service_ids :=
         afterServer.1.advertising_service_ids.erase service_id },
     afterServer.2 ++ [Event.platformStopAdvertising])

/-- BleV2::StartScanning: validates the service id, duplicate registration,
radio and medium; registers with the tracker; when other ids already scan it
only records the id (no platform call); otherwise it records the id, starts
the platform scan — rolling back the tracker registration and the id on
failure — and arms the recurring lost alarm. -/
def startScanning (env : Env) (s : BleState) (service_id : Bytes) :
    Bool × BleState × List Event :=
  if service_id.isEmpty then (false, s, [])
  else if isScanningLocked s service_id then (false, s, [])
  else if !env.radio_enabled then (false, s, [])
  else if !isAvailableLocked env then (false, s, [])
  else
    let s1 := { s with
        tracked_service_ids := insertIfAbsent service_id s.tracked_service_ids }
    if !s1.scanned_service_ids.isEmpty then
      (true,
       { s1 with scanned_service_ids :=
           insertIfAbsent service_id s1.scanned_service_ids },
       [])
    else
      let s2 := { s1 with
          scanned_service_ids := insertIfAbsent service_id s1.scanned_service_ids }
      if !env.platform_start_scanning_ok then
        (false,
         { s2 with
             tracked_service_ids := s2.tracked_service_ids.erase service_id,
             scanned_service_ids := s2.scanned_service_ids.erase service_id },
         [Event.platformStartScanning])
      else
        (true, { s2 with lost_alarm_armed := true },
         [Event.platformStartScanning, Event.alarmArmed])

/-- BleV2::StopScanning: fails when the id is not scanning; unregisters from
the tracker and erases the id; when other scanners remain it returns true
without touching the platform scan; otherwise it cancels the lost alarm (when
valid) and returns the platform StopScanning result. -/
def stopScanning (env : Env) (s : BleState) (service_id : Bytes) :
    Bool × BleState × List Event :=
  if !isScanningLocked s service_id then (false, s, [])
  else
    let s1 := { s with
        tracked_service_ids := s.tracked_service_ids.erase service_id,
        scanned_service_ids := s.scanned_service_ids.erase service_id }
    if !s1.scanned_service_ids.isEmpty then (true, s1, [])
    else
      (env.platform_stop_scanning_ok,
       { s1 with lost_alarm_armed := false },
       (if s1.lost_alarm_armed then [Event.alarmCancelled] else []) ++
         [Event.platformStopScanning])

/-- Modelled from the spec: mediums::AdvertisementReadResult (section 3 and
section 4.4; its class body is not part of the visible sources). A fresh
result holds no slots and no last-attempt outcome; slot_bytes is the
write-once per-slot cache and last_read_succeeded the last-attempt flag. -/
structure AdvertisementReadResult where
  slot_bytes : List (Nat × Bytes)
  last_read_succeeded : Option Bool
deriving DecidableEq, Repr

/-- Modelled from the spec: a freshly constructed AdvertisementReadResult. -/
def AdvertisementReadResult.empty : AdvertisementReadResult :=
  { slot_bytes := [], last_read_succeeded := none }

/-- Modelled from the spec: HasAdvertisement(slot). -/
def AdvertisementReadResult.hasAdvertisement (r : AdvertisementReadResult)
    (slot : Nat) : Bool :=
  r.slot_bytes.any (fun e => e.1 == slot)

/-- Modelled from the spec: AddAdvertisement(slot, bytes), a no-op when the
slot is already present (write-once per slot). -/
def AdvertisementReadResult.addAdvertisement (r : AdvertisementReadResult)
    (slot : Nat) (b : Bytes) : AdvertisementReadResult :=
  if r.hasAdvertisement slot then r
  else { r with slot_bytes := r.slot_bytes ++ [(slot, b)] }

/-- Modelled from the spec: RecordLastReadStatus(success) overwrites the
last-attempt flag. -/
def AdvertisementReadResult.recordLastReadStatus (r : AdvertisementReadResult)
    (success : Bool) : AdvertisementReadResult :=
  { r with last_read_succeeded := some success }

/-- Oracle for the remote GATT server reached during a fetch: whether
ConnectToGattServer yields a valid client, whether DiscoverService succeeds,
which slots have a characteristic (GetCharacteristic per slot, the value being
the characteristic handle) and what ReadCharacteristic returns per handle. -/
structure GattEnv where
  connect_ok : Bool
  discover_ok : Bool
  characteristic : Nat → Option Nat
  read_value : Nat → Option Bytes

/-- Slot loop of BleV2::InternalReadAdvertisementFromGattServerLocked: for
each slot not already cached, a missing characteristic is skipped without
touching the success flag, a successful read is cached, a failed read clears
the success flag, and the loop continues over the remaining slots either way. -/
def readSlots (g : GattEnv) (slots : List Nat)
    (acc : AdvertisementReadResult × Bool) : AdvertisementReadResult × Bool :=
  match slots with
  | [] => acc
  | slot :: rest =>
    if acc.1.hasAdvertisement slot then readSlots g rest acc
    else
      match g.characteristic slot with
      | none => readSlots g rest acc
      | some c =>
        match g.read_value c with
        | some b => readSlots g rest (acc.1.addAdvertisement slot b, acc.2)
        | none => readSlots g rest (acc.1, false)

/-- BleV2::InternalReadAdvertisementFromGattServerLocked: connects to the
remote GATT server (a failed or invalid connection records a failed status and
returns), discovers the copresence service (a failure records a failed status
and returns — with no Disconnect call on that path), runs the slot loop,
disconnects, and records the accumulated status. -/
def internalReadAdvertisementFromGattServerLocked (g : GattEnv)
    (num_slots : Nat) (r : AdvertisementReadResult) :
    AdvertisementReadResult × List Event :=
  if !g.connect_ok then (r.recordLastReadStatus false, [])
  else if !g.discover_ok then (r.recordLastReadStatus false, [Event.gattConnect])
  else
    let out := readSlots g (List.range num_slots) (r, true)
    (out.1.recordLastReadStatus out.2,
     [Event.gattConnect, Event.gattDisconnect])

/-- BleV2::ProcessFetchGattAdvertisementsRequest: a null partial result is
replaced by a fresh empty one; an invalid peripheral, a disabled radio or an
unavailable medium returns the result as is; otherwise the internal read
runs. -/
def processFetchGattAdvertisementsRequest (env : Env) (g : GattEnv)
    (peripheral_valid : Bool) (num_slots : Nat)
    (advertisement_read_result : Option AdvertisementReadResult) :
    AdvertisementReadResult × List Event :=
  let r := advertisement_read_result.getD AdvertisementReadResult.empty
  if !peripheral_valid then (r, [])
  else if !env.radio_enabled then (r, [])
  else if !isAvailableLocked env then (r, [])
  else internalReadAdvertisementFromGattServerLocked g num_slots r

/-! Helper lemmas and concrete fixtures. -/

/-- Stopping the advertisement GATT server only clears the running flag. -/
theorem stopAdvertisementGattServerLocked_state (s : BleState) :
    (stopAdvertisementGattServerLocked s).2 = { s with gatt_server_running := false } := by
  unfold stopAdvertisementGattServerLocked isAdvertisementGattServerRunningLocked
  split_ifs with h
  · cases s
    simp_all
  · rfl

/-- Recording a last-read status leaves the slot cache untouched. -/
theorem hasAdvertisement_recordLastReadStatus (r : AdvertisementReadResult)
    (b : Bool) (t : Nat) :
    (r.recordLastReadStatus b).hasAdvertisement t = r.hasAdvertisement t := rfl

/-- Membership in the slot cache after AddAdvertisement. -/
theorem hasAdvertisement_addAdvertisement (r : AdvertisementReadResult)
    (slot : Nat) (b : Bytes) (t : Nat) :
    ((r.addAdvertisement slot b).hasAdvertisement t = true) ↔
      (r.hasAdvertisement t = true ∨ t = slot) := by
  unfold AdvertisementReadResult.addAdvertisement
  split_ifs with h
  · constructor
    · exact fun ht => Or.inl ht
    · rintro (ht | rfl)
      · exact ht
      · exact h
  · unfold AdvertisementReadResult.hasAdvertisement at h ⊢
    simp only [List.any_append, List.any_cons, List.any_nil, Bool.or_false,
      Bool.or_eq_true, beq_iff_eq]
    constructor
    · rintro (ht | ht)
      · exact Or.inl ht
      · exact Or.inr ht.symm
    · rintro (ht | rfl)
      · exact Or.inl ht
      · exact Or.inr rfl

/-- Invariant of the slot loop when every characteristic that exists on the
remote reads successfully: the success flag is preserved and the cache ends up
holding exactly the previously cached slots plus the visited slots whose
characteristic exists. -/
theorem readSlots_all_reads_ok (g : GattEnv) (slots : List Nat)
    (r : AdvertisementReadResult) (ok : Bool)
    (hr : ∀ slot ∈ slots, ∀ c, g.characteristic slot = some c →
      (g.read_value c).isSome = true) :
    (readSlots g slots (r, ok)).2 = ok ∧
    ∀ t, ((readSlots g slots (r, ok)).1.hasAdvertisement t = true ↔
      (r.hasAdvertisement t = true ∨
        (t ∈ slots ∧ (g.characteristic t).isSome = true))) := by
  induction slots generalizing r with
  | nil =>
    simp [readSlots]
  | cons slot rest ih =>
    have hr' : ∀ s ∈ rest, ∀ c, g.characteristic s = some c →
        (g.read_value c).isSome = true :=
      fun s hs => hr s (List.mem_cons_of_mem _ hs)
    by_cases hhas : r.hasAdvertisement slot = true
    · rw [readSlots]
      simp only [hhas, if_true]
      obtain ⟨ih1, ih2⟩ := ih r hr'
      refine ⟨ih1, fun t => ?_⟩
      rw [ih2 t]
      constructor
      · rintro (ht | ⟨htm, htc⟩)
        · exact Or.inl ht
        · exact Or.inr ⟨List.mem_cons_of_mem _ htm, htc⟩
      · rintro (ht | ⟨htm, htc⟩)
        · exact Or.inl ht
        · rcases List.mem_cons.mp htm with rfl | htm'
          · exact Or.inl hhas
          · exact Or.inr ⟨htm', htc⟩
    · cases hchar : g.characteristic slot with
      | none =>
        rw [readSlots]
        rw [if_neg (by simpa using hhas)]
        simp only [hchar]
        obtain ⟨ih1, ih2⟩ := ih r hr'
        refine ⟨ih1, fun t => ?_⟩
        rw [ih2 t]
        constructor
        · rintro (ht | ⟨htm, htc⟩)
          · exact Or.inl ht
          · exact Or.inr ⟨List.mem_cons_of_mem _ htm, htc⟩
        · rintro (ht | ⟨htm, htc⟩)
          · exact Or.inl ht
          · rcases List.mem_cons.mp htm with rfl | htm'
            · rw [hchar] at htc
              simp at htc
            · exact Or.inr ⟨htm', htc⟩
      | some c =>
        have hread : (g.read_value c).isSome = true :=
          hr slot (List.mem_cons_self _ _) c hchar
        obtain ⟨b, hb⟩ := Option.isSome_iff_exists.mp hread
        rw [readSlots]
        rw [if_neg (by simpa using hhas)]
        simp only [hchar, hb]
        obtain ⟨ih1, ih2⟩ := ih (r.addAdvertisement slot b) hr'
        refine ⟨ih1, fun t => ?_⟩
        rw [ih2 t, hasAdvertisement_addAdvertisement]
        constructor
        · rintro ((ht | rfl) | ⟨htm, htc⟩)
          · exact Or.inl ht
          · refine Or.inr ⟨List.mem_cons_self _ _, ?_⟩
            rw [hchar]
            rfl
          · exact Or.inr ⟨List.mem_cons_of_mem _ htm, htc⟩
        · rintro (ht | ⟨htm, htc⟩)
          · exact Or.inl (Or.inl ht)
          · rcases List.mem_cons.mp htm with rfl | htm'
            · exact Or.inl (Or.inr rfl)
            · exact Or.inr ⟨htm', htc⟩

/-- Fold shape of the header computation: the bloom keys accumulate in
iteration order while the digest chains over the advertisement bytes alone. -/
theorem createAdvertisementHeader_foldl (hash : Bytes → Bytes)
    (advs : List (Nat × Bytes × Bytes)) (bloomAcc : List Bytes) (hAcc : Bytes) :
    advs.foldl
      (fun (acc : List Bytes × Bytes) item =>
        (acc.1 ++ [item.2.1], hash (acc.2 ++ item.2.2)))
      (bloomAcc, hAcc) =
    (bloomAcc ++ advs.map (fun e => e.2.1),
     (advs.map (fun e => e.2.2)).foldl (fun d b => hash (d ++ b)) hAcc) := by
  induction advs generalizing bloomAcc hAcc with
  | nil => simp
  | cons a rest ih =>
    simp only [List.foldl_cons, List.map_cons]
    rw [ih]
    simp

/-- Benign platform environment used as the base of concrete test inputs. -/
def envTrue : Env :=
  { radio_enabled := true
    medium_valid := true
    medium_advertisement_bytes := [1]
    start_gatt_server_ok := true
    create_characteristic := fun slot => some ⟨slot⟩
    update_characteristic_ok := true
    header_bytes_nonempty := true
    platform_start_advertising_ok := true
    platform_stop_advertising_ok := true
    platform_start_scanning_ok := true
    platform_stop_scanning_ok := true }

/-- Idle medium state used as the base of concrete test inputs. -/
def emptyState : BleState :=
  { advertising_service_ids := []
    scanned_service_ids := []
    gatt_advertisements := []
    hosted_gatt_characteristics := []
    gatt_server_running := false
    tracked_service_ids := []
    lost_alarm_armed := false }

/-! Claim theorems. -/

/-- C10: PowerLevelToPowerMode maps kHighPower to PowerMode::kHigh, maps
kLowPower to PowerMode::kMedium (never to a low mode), and maps every other
power level to PowerMode::kUnknown. -/
theorem powerLevelToPowerMode_mapping :
    powerLevelToPowerMode PowerLevel.kHighPower = PowerMode.kHigh ∧
    powerLevelToPowerMode PowerLevel.kLowPower = PowerMode.kMedium ∧
    powerLevelToPowerMode PowerLevel.kLowPower ≠ PowerMode.kLow ∧
    ∀ v : Nat,
      powerLevelToPowerMode (PowerLevel.unlistedValue v) = PowerMode.kUnknown :=
  ⟨rfl, rfl, by decide, fun _ => rfl⟩

/-- C3: the header hash is the chain digest0 = Hash(anonymizing seed),
digest_{i+1} = Hash(digest_i ++ slot_bytes_i) over the slot entries in
iteration order; each entry's service id goes into the bloom filter and not
into the hash; consequently for the same seed and the same slot bytes in the
same order the recomputed digest is identical. -/
theorem createAdvertisementHeader_hash_chain (hash : Bytes → Bytes)
    (dummy : Bytes) (advs : List (Nat × Bytes × Bytes)) :
    (createAdvertisementHeader hash dummy advs).advertisement_hash =
      headerHashChainSpec hash dummy (advs.map (fun e => e.2.2)) ∧
    (createAdvertisementHeader hash dummy advs).bloom_keys =
      dummy :: advs.map (fun e => e.2.1) ∧
    ∀ advs2 : List (Nat × Bytes × Bytes),
      advs.map (fun e => e.2.2) = advs2.map (fun e => e.2.2) →
      (createAdvertisementHeader hash dummy advs).advertisement_hash =
        (createAdvertisementHeader hash dummy advs2).advertisement_hash := by
  have key : ∀ l : List (Nat × Bytes × Bytes),
      (createAdvertisementHeader hash dummy l).advertisement_hash =
        headerHashChainSpec hash dummy (l.map (fun e => e.2.2)) ∧
      (createAdvertisementHeader hash dummy l).bloom_keys =
        dummy :: l.map (fun e => e.2.1) := by
    intro l
    unfold createAdvertisementHeader headerHashChainSpec
    rw [createAdvertisementHeader_foldl]
    simp
  refine ⟨(key advs).1, (key advs).2, fun advs2 heq => ?_⟩
  rw [(key advs).1, (key advs2).1, heq]

/-- Witness for C3 at concrete inputs: two slot lists with different slot
indices and service ids but the same advertisement bytes yield the same
digest. -/
theorem createAdvertisementHeader_hash_chain_witness :
    (createAdvertisementHeader (fun b => 9 :: b) [1]
        [(0, [2], [3])]).advertisement_hash =
      (createAdvertisementHeader (fun b => 9 :: b) [1]
        [(5, [7], [3])]).advertisement_hash :=
  (createAdvertisementHeader_hash_chain (fun b => 9 :: b) [1]
    [(0, [2], [3])]).2.2 [(5, [7], [3])] rfl

/-- C2 counterexample: when the connection succeeds but service discovery
fails, InternalReadAdvertisementFromGattServerLocked returns without a
Disconnect call — the event trace holds the connect but no disconnect. -/
theorem internalRead_discover_failure_no_disconnect :
    ((internalReadAdvertisementFromGattServerLocked
        { connect_ok := true, discover_ok := false,
          characteristic := fun _ => none, read_value := fun _ => none }
        3 AdvertisementReadResult.empty).2.contains Event.gattConnect = true) ∧
    ((internalReadAdvertisementFromGattServerLocked
        { connect_ok := true, discover_ok := false,
          characteristic := fun _ => none, read_value := fun _ => none }
        3 AdvertisementReadResult.empty).2.contains Event.gattDisconnect
      = false) := by
  constructor <;> rfl

/-- C2 as amended: a failed connection establishes nothing and records a
failed status; once the connection is established, the client is disconnected
before returning exactly when service discovery succeeded (per-slot read
failures included), while the discovery-failure path records a failed status
and returns without a disconnect call; on the discovery-success path the
status recorded is the slot loop's accumulated outcome — so an overall
last-read status is recorded on every path. -/
theorem internalRead_events_and_status (g : GattEnv) (n : Nat)
    (r : AdvertisementReadResult) :
    (internalReadAdvertisementFromGattServerLocked g n r).2 =
      (if g.connect_ok then
        (if g.discover_ok then [Event.gattConnect, Event.gattDisconnect]
         else [Event.gattConnect])
       else ([] : List Event)) ∧
    (internalReadAdvertisementFromGattServerLocked g n r).1.last_read_succeeded =
      (if g.connect_ok then
        (if g.discover_ok then
          some (readSlots g (List.range n) (r, true)).2
         else some false)
       else some false) ∧
    ((internalReadAdvertisementFromGattServerLocked g n r).1).last_read_succeeded.isSome
      = true := by
  unfold internalReadAdvertisementFromGattServerLocked
  cases hc : g.connect_ok <;> cases hd : g.discover_ok <;>
    simp [AdvertisementReadResult.recordLastReadStatus]

/-- C9: ProcessFetchGattAdvertisementsRequest substitutes a fresh empty
result for a null one and, when the peripheral is invalid, the radio disabled
or the medium unavailable, returns the result unchanged, with no connection
attempt and no last-read status recorded for a fresh result. -/
theorem processFetch_precondition_failures (env : Env) (g : GattEnv)
    (peripheral_valid : Bool) (n : Nat)
    (r? : Option AdvertisementReadResult)
    (h : peripheral_valid = false ∨ env.radio_enabled = false ∨
      env.medium_valid = false) :
    processFetchGattAdvertisementsRequest env g peripheral_valid n r? =
      (r?.getD AdvertisementReadResult.empty, []) ∧
    (r? = none →
      (processFetchGattAdvertisementsRequest env g peripheral_valid n
        r?).1.last_read_succeeded = none) := by
  unfold processFetchGattAdvertisementsRequest
  constructor
  · rcases h with h | h | h <;> split_ifs <;>
      simp_all [isAvailableLocked]
  · intro hr
    subst hr
    rcases h with h | h | h <;> split_ifs <;>
      simp_all [isAvailableLocked, AdvertisementReadResult.empty]

/-- Witness for C9: with the radio disabled and a null partial result, the
fetch returns a fresh empty result, attempts nothing, and records no
last-read status. -/
theorem processFetch_precondition_failures_witness :
    processFetchGattAdvertisementsRequest { envTrue with radio_enabled := false }
        { connect_ok := true, discover_ok := true,
          characteristic := fun _ => none, read_value := fun _ => none }
        true 2 none =
      ((none : Option AdvertisementReadResult).getD
        AdvertisementReadResult.empty, []) ∧
    ((none : Option AdvertisementReadResult) = none →
      (processFetchGattAdvertisementsRequest { envTrue with radio_enabled := false }
          { connect_ok := true, discover_ok := true,
            characteristic := fun _ => none, read_value := fun _ => none }
          true 2 none).1.last_read_succeeded = none) :=
  processFetch_precondition_failures { envTrue with radio_enabled := false }
    { connect_ok := true, discover_ok := true,
      characteristic := fun _ => none, read_value := fun _ => none }
    true 2 none (Or.inr (Or.inl rfl))

/-- C5: during a fetch over slots 0..num_slots-1 starting from a fresh
result, a slot without a characteristic on the remote is skipped and not
counted as a failure: when every characteristic that exists reads
successfully, the final status is success and the cached slots are exactly
those below num_slots whose characteristic exists. -/
theorem fetch_missing_slots_not_failures (g : GattEnv) (n : Nat)
    (hc : g.connect_ok = true) (hd : g.discover_ok = true)
    (hr : ∀ slot, slot < n → ∀ c, g.characteristic slot = some c →
      (g.read_value c).isSome = true) :
    (internalReadAdvertisementFromGattServerLocked g n
      AdvertisementReadResult.empty).1.last_read_succeeded = some true ∧
    ∀ slot, ((internalReadAdvertisementFromGattServerLocked g n
        AdvertisementReadResult.empty).1.hasAdvertisement slot = true ↔
      (slot < n ∧ (g.characteristic slot).isSome = true)) := by
  have hr' : ∀ slot ∈ List.range n, ∀ c, g.characteristic slot = some c →
      (g.read_value c).isSome = true :=
    fun slot hs => hr slot (List.mem_range.mp hs)
  obtain ⟨h2, h1⟩ := readSlots_all_reads_ok g (List.range n)
    AdvertisementReadResult.empty true hr'
  unfold internalReadAdvertisementFromGattServerLocked
  rw [if_neg (by simp [hc]), if_neg (by simp [hd])]
  constructor
  · simp [AdvertisementReadResult.recordLastReadStatus, h2]
  · intro slot
    rw [hasAdvertisement_recordLastReadStatus, h1 slot]
    simp [List.mem_range, AdvertisementReadResult.empty,
      AdvertisementReadResult.hasAdvertisement]

/-- Remote GATT oracle for the spec scenario of C5: three slots requested but
only slot 1 has a characteristic, whose read succeeds. -/
def gattOneSlot : GattEnv :=
  { connect_ok := true
    discover_ok := true
    characteristic := fun slot => if slot == 1 then some 1 else none
    read_value := fun _ => some [7] }

/-- Witness for C5: a 3-slot fetch where only slot 1 exists yields a
successful status with slot 1 cached. -/
theorem fetch_missing_slots_not_failures_witness :
    (internalReadAdvertisementFromGattServerLocked gattOneSlot 3
      AdvertisementReadResult.empty).1.last_read_succeeded = some true ∧
    ((internalReadAdvertisementFromGattServerLocked gattOneSlot 3
        AdvertisementReadResult.empty).1.hasAdvertisement 1 = true ↔
      (1 < 3 ∧ (gattOneSlot.characteristic 1).isSome = true)) :=
  ⟨(fetch_missing_slots_not_failures gattOneSlot 3 rfl rfl
      (fun _ _ _ _ => rfl)).1,
   (fetch_missing_slots_not_failures gattOneSlot 3 rfl rfl
      (fun _ _ _ _ => rfl)).2 1⟩

/-- C7: StartAdvertising returns false and mutates no medium state when the
advertisement bytes are empty, exceed 512 bytes, the service id is already
advertising, the radio is disabled, or the medium is unavailable. -/
theorem startAdvertising_validation_failures (env : Env) (s : BleState)
    (service_id advertisement_bytes fast_uuid : Bytes)
    (h : advertisement_bytes.isEmpty = true ∨
      kMaxAdvertisementLength < advertisement_bytes.length ∨
      isAdvertisingLocked s service_id = true ∨
      env.radio_enabled = false ∨ env.medium_valid = false) :
    startAdvertising env s service_id advertisement_bytes fast_uuid =
      (false, s, []) := by
  unfold startAdvertising
  by_cases hA : advertisement_bytes.isEmpty = true
  · rw [if_pos hA]
  · rw [if_neg hA]
    by_cases hB : kMaxAdvertisementLength < advertisement_bytes.length
    · rw [if_pos hB]
    · rw [if_neg hB]
      by_cases hC : isAdvertisingLocked s service_id = true
      · rw [if_pos hC]
      · rw [if_neg hC]
        rcases h with h | h | h | h | h
        · exact absurd h hA
        · exact absurd h hB
        · exact absurd h hC
        · rw [if_pos (by simp [h])]
        · by_cases hD : (!env.radio_enabled) = true
          · rw [if_pos hD]
          · rw [if_neg hD, if_pos (by simp [isAvailableLocked, h])]

/-- Witness for C7: a disabled radio makes StartAdvertising fail with the
state untouched. -/
theorem startAdvertising_validation_failures_witness :
    startAdvertising { envTrue with radio_enabled := false } emptyState
      [5] [1] [] = (false, emptyState, []) :=
  startAdvertising_validation_failures { envTrue with radio_enabled := false }
    emptyState [5] [1] [] (Or.inr (Or.inr (Or.inr (Or.inl rfl))))

/-- C4: on the slow (non-fast) advertising path, when the GATT server was
started but the advertisement header cannot be created or the platform
StartAdvertising call fails, the GATT server is stopped before the call
returns false, and the service id is not registered as advertising. -/
theorem startAdvertising_slow_failure_tears_down_server (env : Env)
    (s : BleState) (service_id advertisement_bytes : Bytes)
    (h1 : advertisement_bytes.isEmpty = false)
    (h2 : ¬ kMaxAdvertisementLength < advertisement_bytes.length)
    (h3 : isAdvertisingLocked s service_id = false)
    (h4 : env.radio_enabled = true)
    (h5 : env.medium_valid = true)
    (h6 : env.medium_advertisement_bytes.isEmpty = false)
    (h7 : env.start_gatt_server_ok = true)
    (c : GattCharacteristic)
    (h8 : env.create_characteristic 0 = some c)
    (h9 : env.update_characteristic_ok = true)
    (h10 : env.header_bytes_nonempty = false ∨
      env.platform_start_advertising_ok = false) :
    (startAdvertising env s service_id advertisement_bytes []).1 = false ∧
    (startAdvertising env s service_id advertisement_bytes
      []).2.1.gatt_server_running = false ∧
    isAdvertisingLocked
      (startAdvertising env s service_id advertisement_bytes []).2.1
      service_id = false := by
  unfold startAdvertising
  rw [if_neg (by simp [h1]), if_neg h2, if_neg (by simp [h3]),
    if_neg (by simp [h4]), if_neg (by simp [isAvailableLocked, h5]),
    if_neg (by simp [h6]), if_neg (by simp)]
  rcases h10 with h10 | h10 <;>
    cases hh : env.header_bytes_nonempty <;>
      simp_all [stopAdvertisementGattServerLocked_state,
        isAdvertisementGattServerRunningLocked,
        startAdvertisementGattServerLocked,
        generateAdvertisementCharacteristic, isAdvertisingLocked,
        insertSlot, insertChar]

/-- Witness for C4: with a benign platform except that the serialized header
comes out empty, the slow path returns false with the server stopped. -/
theorem startAdvertising_slow_failure_tears_down_server_witness :
    (startAdvertising { envTrue with header_bytes_nonempty := false }
      emptyState [5] [1] []).1 = false ∧
    (startAdvertising { envTrue with header_bytes_nonempty := false }
      emptyState [5] [1] []).2.1.gatt_server_running = false ∧
    isAdvertisingLocked
      (startAdvertising { envTrue with header_bytes_nonempty := false }
        emptyState [5] [1] []).2.1 [5] = false :=
  startAdvertising_slow_failure_tears_down_server
    { envTrue with header_bytes_nonempty := false } emptyState [5] [1]
    rfl (by decide) rfl rfl rfl rfl rfl ⟨0⟩ rfl rfl (Or.inl rfl)

/-- Medium state with one slow-path advertiser live: the id is registered,
its advertisement occupies slot 0, its characteristic is hosted and the GATT
server is running. -/
def sAdv : BleState :=
  { emptyState with
      advertising_service_ids := [[1]]
      gatt_advertisements := [(0, [1], [9])]
      hosted_gatt_characteristics := [⟨0⟩]
      gatt_server_running := true }

/-- C1 counterexample: the sole advertiser stops (afterwards nobody is
advertising, and no_incoming_ble_sockets is the constant true), yet the GATT
server stays running because the hosted characteristic set was non-empty —
refuting that the server is stopped exactly when the last advertiser leaves. -/
theorem stopAdvertising_last_advertiser_keeps_server :
    sAdv.advertising_service_ids = [[1]] ∧
    (stopAdvertising envTrue sAdv [1]).2.1.advertising_service_ids = [] ∧
    (stopAdvertising envTrue sAdv [1]).2.1.gatt_server_running = true := by
  refine ⟨rfl, ?_, ?_⟩ <;> rfl

/-- C1 as amended: StopAdvertising on an advertising id clears the slot map
and returns the platform result; it stops the GATT server exactly when no
hosted characteristics remain, and otherwise — even when the stopped id was
the last advertiser — it only writes empty values into the hosted
characteristics, clears the hosted set and leaves the server running. -/
theorem stopAdvertising_server_lifecycle (env : Env) (s : BleState)
    (service_id : Bytes) (h : isAdvertisingLocked s service_id = true) :
    (stopAdvertising env s service_id).1 = env.platform_stop_advertising_ok ∧
    (stopAdvertising env s service_id).2.1.gatt_advertisements = [] ∧
    (stopAdvertising env s service_id).2.1.advertising_service_ids =
      s.advertising_service_ids.erase service_id ∧
    (stopAdvertising env s service_id).2.1.hosted_gatt_characteristics = [] ∧
    (stopAdvertising env s service_id).2.1.gatt_server_running =
      (if s.hosted_gatt_characteristics.isEmpty then false
       else s.gatt_server_running) ∧
    (stopAdvertising env s service_id).2.2 =
      (s.hosted_gatt_characteristics.map
        (fun c => Event.updateCharacteristic c [])) ++
        [Event.platformStopAdvertising] := by
  unfold stopAdvertising
  rw [if_neg (by simp [h])]
  cases hh : s.hosted_gatt_characteristics with
  | nil => simp [stopAdvertisementGattServerLocked_state]
  | cons a rest => simp [hh]

/-- Witness for C1 at the single-advertiser state: slots cleared, hosted
characteristics written empty and cleared, server left running. -/
theorem stopAdvertising_server_lifecycle_witness :
    (stopAdvertising envTrue sAdv [1]).1 = envTrue.platform_stop_advertising_ok ∧
    (stopAdvertising envTrue sAdv [1]).2.1.gatt_advertisements = [] ∧
    (stopAdvertising envTrue sAdv [1]).2.1.advertising_service_ids =
      sAdv.advertising_service_ids.erase [1] ∧
    (stopAdvertising envTrue sAdv [1]).2.1.hosted_gatt_characteristics = [] ∧
    (stopAdvertising envTrue sAdv [1]).2.1.gatt_server_running =
      (if sAdv.hosted_gatt_characteristics.isEmpty then false
       else sAdv.gatt_server_running) ∧
    (stopAdvertising envTrue sAdv [1]).2.2 =
      (sAdv.hosted_gatt_characteristics.map
        (fun c => Event.updateCharacteristic c [])) ++
        [Event.platformStopAdvertising] :=
  stopAdvertising_server_lifecycle envTrue sAdv [1] rfl

/-- C6: at most one platform-level scan is active: the first successful
scanner starts the platform scan and arms the lost alarm, a scanner arriving
while others scan is registered without any platform call, a stop with
scanners remaining makes no platform call, and the last stop cancels the
alarm and stops the platform scan. -/
theorem platform_scan_single (env : Env) (s : BleState) (service_id : Bytes) :
    ((service_id.isEmpty = false ∧ isScanningLocked s service_id = false ∧
      env.radio_enabled = true ∧ env.medium_valid = true ∧
      s.scanned_service_ids ≠ []) →
      startScanning env s service_id =
        (true,
         { s with
             tracked_service_ids :=
               insertIfAbsent service_id s.tracked_service_ids,
             scanned_service_ids :=
               insertIfAbsent service_id s.scanned_service_ids },
         [])) ∧
    ((service_id.isEmpty = false ∧ isScanningLocked s service_id = false ∧
      env.radio_enabled = true ∧ env.medium_valid = true ∧
      s.scanned_service_ids = [] ∧ env.platform_start_scanning_ok = true) →
      startScanning env s service_id =
        (true,
         { s with
             tracked_service_ids :=
               insertIfAbsent service_id s.tracked_service_ids,
             scanned_service_ids := [service_id],
             lost_alarm_armed := true },
         [Event.platformStartScanning, Event.alarmArmed])) ∧
    ((isScanningLocked s service_id = true ∧
      s.scanned_service_ids.erase service_id ≠ []) →
      stopScanning env s service_id =
        (true,
         { s with
             tracked_service_ids :=
               s.tracked_service_ids.erase service_id,
             scanned_service_ids :=
               s.scanned_service_ids.erase service_id },
         [])) ∧
    ((isScanningLocked s service_id = true ∧
      s.scanned_service_ids.erase service_id = []) →
      stopScanning env s service_id =
        (env.platform_stop_scanning_ok,
         { s with
             tracked_service_ids :=
               s.tracked_service_ids.erase service_id,
             scanned_service_ids :=
               s.scanned_service_ids.erase service_id,
             lost_alarm_armed := false },
         (if s.lost_alarm_armed then [Event.alarmCancelled] else []) ++
           [Event.platformStopScanning])) := by
  refine ⟨?_, ?_, ?_, ?_⟩
  · rintro ⟨h1, h2, h3, h4, h5⟩
    unfold startScanning
    rw [if_neg (by simp [h1]), if_neg (by simp [h2]), if_neg (by simp [h3]),
      if_neg (by simp [isAvailableLocked, h4])]
    cases hscan : s.scanned_service_ids with
    | nil => exact absurd hscan h5
    | cons a as => simp [hscan]
  · rintro ⟨h1, h2, h3, h4, h5, h6⟩
    unfold startScanning
    rw [if_neg (by simp [h1]), if_neg (by simp [h2]), if_neg (by simp [h3]),
      if_neg (by simp [isAvailableLocked, h4])]
    simp [h5, h6, insertIfAbsent]
  · rintro ⟨h1, h2⟩
    unfold stopScanning
    rw [if_neg (by simp [h1])]
    cases herase : s.scanned_service_ids.erase service_id with
    | nil => exact absurd herase h2
    | cons a as => simp [herase]
  · rintro ⟨h1, h2⟩
    unfold stopScanning
    rw [if_neg (by simp [h1])]
    simp [h2]

/-- Scanning state with one other id registered, used by the C6 witness. -/
def sScanOther : BleState :=
  { emptyState with
      scanned_service_ids := [[2]]
      tracked_service_ids := [[2]]
      lost_alarm_armed := true }

/-- Scanning state with a single id registered, used by the C6 witness. -/
def sScanSolo : BleState :=
  { emptyState with
      scanned_service_ids := [[1]]
      tracked_service_ids := [[1]]
      lost_alarm_armed := true }

/-- Witness for C6: a second scanner piggybacks with no platform call, and
the last stop cancels the alarm and stops the platform scan. -/
theorem platform_scan_single_witness :
    (startScanning envTrue sScanOther [1] =
      (true,
       { sScanOther with
           tracked_service_ids :=
             insertIfAbsent [1] sScanOther.tracked_service_ids,
           scanned_service_ids :=
             insertIfAbsent [1] sScanOther.scanned_service_ids },
       [])) ∧
    (stopScanning envTrue sScanSolo [1] =
      (envTrue.platform_stop_scanning_ok,
       { sScanSolo with
           tracked_service_ids := sScanSolo.tracked_service_ids.erase [1],
           scanned_service_ids := sScanSolo.scanned_service_ids.erase [1],
           lost_alarm_armed := false },
       (if sScanSolo.lost_alarm_armed then [Event.alarmCancelled] else []) ++
         [Event.platformStopScanning])) :=
  ⟨(platform_scan_single envTrue sScanOther [1]).1
      ⟨rfl, rfl, rfl, rfl, by decide⟩,
   (platform_scan_single envTrue sScanSolo [1]).2.2.2
      ⟨rfl, by decide⟩⟩

/-- C8: when the platform StartScanning call fails, StartScanning returns
false, rolls back the tracker registration and the scanned-set entry, leaves
the state equal to the state before the call, and IsScanning is false
afterwards. -/
theorem startScanning_platform_failure_rollback (env : Env) (s : BleState)
    (service_id : Bytes)
    (h1 : service_id.isEmpty = false)
    (h2 : isScanningLocked s service_id = false)
    (h3 : env.radio_enabled = true)
    (h4 : env.medium_valid = true)
    (h5 : s.scanned_service_ids = [])
    (h6 : env.platform_start_scanning_ok = false)
    (h7 : s.tracked_service_ids.contains service_id = false) :
    startScanning env s service_id =
      (false, s, [Event.platformStartScanning]) ∧
    isScanningLocked (startScanning env s service_id).2.1 service_id
      = false := by
  have key : startScanning env s service_id =
      (false, s, [Event.platformStartScanning]) := by
    unfold startScanning
    rw [if_neg (by simp [h1]), if_neg (by simp [h2]), if_neg (by simp [h3]),
      if_neg (by simp [isAvailableLocked, h4])]
    rcases s with ⟨adv, scn, ga, hg, run, trk, alarm⟩
    simp only at h5 h7
    subst h5
    have h7' : ¬ service_id ∈ trk := by simpa using h7
    simp [insertIfAbsent, h6, h7', List.erase_cons_head]
  refine ⟨key, ?_⟩
  rw [key]
  exact h2

/-- Witness for C8: from the idle state with a failing platform scan, the
call fails and the state is unchanged. -/
theorem startScanning_platform_failure_rollback_witness :
    startScanning { envTrue with platform_start_scanning_ok := false }
      emptyState [1] = (false, emptyState, [Event.platformStartScanning]) ∧
    isScanningLocked
      (startScanning { envTrue with platform_start_scanning_ok := false }
        emptyState [1]).2.1 [1] = false :=
  startScanning_platform_failure_rollback
    { envTrue with platform_start_scanning_ok := false } emptyState [1]
    rfl rfl rfl rfl rfl rfl rfl

end BleV2
